import Mathlib

/-!
Shallow embedding of the asynchronous-operation adapter from
`src/examples/c/storage.c` (a C test driver over `src/library/libstorage.h`).

Byte buffers are modelled as `List Nat`; a C string read (`strdup`,
`strcmp`, `strlen`) reads bytes up to the first 0 byte (`cstr`).  Heap
allocation is assumed to succeed, and the callbacks delivered by the
external service while a caller polls a `Resp` are modelled as an explicit
list of invocations folded over the freshly allocated `Resp`.
-/

namespace Storage

/-- RET_OK from libstorage.h. -/
def RET_OK : Int := 0

/-- RET_ERR from libstorage.h. -/
def RET_ERR : Int := 1

/-- RET_MISSING_CALLBACK from libstorage.h. -/
def RET_MISSING_CALLBACK : Int := 2

/-- RET_PROGRESS from libstorage.h. -/
def RET_PROGRESS : Int := 3

/-- MAX_RETRIES from storage.c. -/
def MAX_RETRIES : Nat := 250

/-- The `Resp` struct of storage.c: return code, message buffer, chunk
buffer and length.  `msg`/`chunk` are `none` when the C pointer is NULL. -/
structure Resp where
  ret : Int
  msg : Option (List Nat)
  chunk : Option (List Nat)
  len : Nat
deriving DecidableEq

/-- `alloc_resp`: calloc-zeroed struct, then `ret` set to -1 (Pending). -/
def alloc_resp : Resp := { ret := -1, msg := none, chunk := none, len := 0 }

/-- C-string content of a byte buffer: the bytes before the first 0. -/
def cstr (l : List Nat) : List Nat := l.takeWhile (fun b => b != 0)

/-- `strlen` on a byte buffer. -/
def strlen (l : List Nat) : Nat := (cstr l).length

/-- `memcpy(dst, src, len)` into a buffer: the first `len` bytes of `src`
overwrite the front of `dst` (no bounds check against `dst`'s size; when
`len` exceeds it, the write extends past the allocation). -/
def memcpy_into (dst src : List Nat) (len : Nat) : List Nat :=
  src.take len ++ dst.drop len

/-- `get_ret` of storage.c: RET_ERR for a NULL resp, else the stored code. -/
def get_ret (r : Option Resp) : Int :=
  match r with
  | none => RET_ERR
  | some r => r.ret

/-- The body of `callback` of storage.c once the NULL `userData` check has
passed: store the return code, free any previous message, copy progress
chunk data when applicable, then copy (or clear) the message. -/
def callback_resp (ret : Int) (msg : Option (List Nat)) (len : Nat) (r0 : Resp) : Resp :=
  let r1 : Resp := { r0 with ret := ret }
  let r2 : Resp := if r1.msg.isSome then { r1 with msg := none, len := 0 } else r1
  let r3 : Resp :=
    match msg, r2.chunk with
    | some m, some c =>
      if ret = RET_PROGRESS ∧ 0 < len then
        { r2 with chunk := some (memcpy_into c m len), len := len }
      else r2
    | _, _ => r2
  match msg with
  | some m =>
    if 0 < len then { r3 with msg := some (m.take len), len := len }
    else { r3 with msg := none, len := 0 }
  | none => { r3 with msg := none, len := 0 }

/-- `callback` of storage.c: `userData` is the `Resp` pointer; a NULL
pointer makes the call a no-op. -/
def callback (ret : Int) (msg : Option (List Nat)) (len : Nat)
    (userData : Option Resp) : Option Resp :=
  match userData with
  | none => none
  | some r => some (callback_resp ret msg len r)

/-- One loop iteration of `wait_resp`: `obs i` is the status the poller
reads at its i-th check; the loop sleeps and retries while the status is
-1 (Pending) and retries remain.  Returns the number of sleeps performed. -/
def wait_resp_go (obs : Nat → Int) (retries fuel : Nat) : Nat :=
  match fuel with
  | 0 => retries
  | Nat.succ f =>
    if obs retries = -1 then wait_resp_go obs (retries + 1) f else retries

/-- `wait_resp` of storage.c, abstracted over the observed status stream:
polls from retry 0 with a budget of MAX_RETRIES. -/
def wait_resp_iters (obs : Nat → Int) : Nat := wait_resp_go obs 0 MAX_RETRIES

/-- Heap actions performed by `is_resp_ok`/`free_resp`, recorded so that
resource claims (one free per Resp) can be stated. -/
inductive Act where
  | wait : Act
  | freeMsg : Act
  | freeChunk : Act
  | freeResp : Act
deriving DecidableEq

/-- `free_resp` of storage.c as its list of heap actions: nothing for a
NULL resp, else free the message and chunk buffers when present, then the
struct itself. -/
def free_resp_acts (r : Option Resp) : List Act :=
  match r with
  | none => []
  | some r =>
    (if r.msg.isSome then [Act.freeMsg] else []) ++
      (if r.chunk.isSome then [Act.freeChunk] else []) ++ [Act.freeResp]

/-- `is_resp_ok` of storage.c over the final observed `Resp` state.
`hasRes` says whether a result out-pointer was supplied.  Returns the
status, the string handed back through the out-pointer (chunk preferred
over msg, each `strdup`-ed), and the heap actions performed. -/
def is_resp_ok (r : Option Resp) (hasRes : Bool) :
    Int × Option (List Nat) × List Act :=
  match r with
  | none => (RET_ERR, none, [])
  | some r =>
    let ret : Int := if r.ret = RET_OK then RET_OK else RET_ERR
    let res : Option (List Nat) :=
      if hasRes then
        match r.chunk with
        | some c => some (cstr c)
        | none =>
          match r.msg with
          | some m => some (cstr m)
          | none => none
      else none
    (ret, res, Act.wait :: free_resp_acts (some r))

/-- One callback invocation delivered by the external service: the code,
message bytes and length handed to `callback`. -/
structure CbCall where
  ret : Int
  msg : Option (List Nat)
  len : Nat
deriving DecidableEq

/-- Fold a list of delivered callback invocations over a `Resp`. -/
def deliver (cbs : List CbCall) (r : Resp) : Resp :=
  cbs.foldl (fun s c => (callback c.ret c.msg c.len (some s)).getD s) r

/-- The `Resp` state a caller observes after allocating a fresh resp and
letting the service deliver `cbs` during the poll. -/
def stepResp (cbs : List CbCall) : Resp := deliver cbs alloc_resp

/-- The three lifecycle operations dispatched by `cleanup`. -/
inductive Op where
  | stop : Op
  | close : Op
  | destroy : Op
deriving DecidableEq

/-- Observable steps of `cleanup`: dispatching a lifecycle call, awaiting
its resp inside `is_resp_ok` (`wait_resp`), and freeing its resp. -/
inductive Step where
  | dispatch : Op → Step
  | waitOn : Op → Step
  | free : Op → Step
deriving DecidableEq

/-- Environment for one run of `cleanup`: the immediate dispatch status of
each lifecycle call and the callback invocations the service delivers to
the resp of each call that was dispatched. -/
structure CleanupEnv where
  stopDispatch : Int
  stopCbs : List CbCall
  closeDispatch : Int
  closeCbs : List CbCall
  destroyDispatch : Int
  destroyCbs : List CbCall

/-- `cleanup` of storage.c: stop, close, then destroy the node, each step
aborting with RET_ERR on a failed dispatch or a failed await; the destroy
resp is freed without any await (storage_destroy is treated as
synchronous).  Returns the status and the trace of observable steps. -/
def cleanup (env : CleanupEnv) : Int × List Step :=
  if env.stopDispatch ≠ RET_OK then
    (RET_ERR, [Step.dispatch Op.stop, Step.free Op.stop])
  else
    let tStop : List Step :=
      [Step.dispatch Op.stop, Step.waitOn Op.stop, Step.free Op.stop]
    if (is_resp_ok (some (stepResp env.stopCbs)) false).1 ≠ RET_OK then
      (RET_ERR, tStop)
    else if env.closeDispatch ≠ RET_OK then
      (RET_ERR, tStop ++ [Step.dispatch Op.close, Step.free Op.close])
    else
      let tClose : List Step :=
        tStop ++ [Step.dispatch Op.close, Step.waitOn Op.close, Step.free Op.close]
      if (is_resp_ok (some (stepResp env.closeCbs)) false).1 ≠ RET_OK then
        (RET_ERR, tClose)
      else if env.destroyDispatch ≠ RET_OK then
        (RET_ERR, tClose ++ [Step.dispatch Op.destroy, Step.free Op.destroy])
      else
        (RET_OK, tClose ++ [Step.dispatch Op.destroy, Step.free Op.destroy])

/-- Environment for one run of `check_upload_chunk`: dispatch statuses and
delivered callbacks for the init, chunk and finalize calls. -/
structure UploadEnv where
  initDispatch : Int
  initCbs : List CbCall
  chunkDispatch : Int
  chunkCbs : List CbCall
  finalizeDispatch : Int
  finalizeCbs : List CbCall

/-- `check_upload_chunk` of storage.c: upload_init (awaited for the
session id), upload_chunk (awaited), upload_finalize (awaited for the
cid); a NULL or empty cid string forces RET_ERR even after a RET_OK. -/
def check_upload_chunk (env : UploadEnv) : Int :=
  if env.initDispatch ≠ RET_OK then RET_ERR
  else if (is_resp_ok (some (stepResp env.initCbs)) true).1 ≠ RET_OK then RET_ERR
  else if env.chunkDispatch ≠ RET_OK then RET_ERR
  else if (is_resp_ok (some (stepResp env.chunkCbs)) false).1 ≠ RET_OK then RET_ERR
  else if env.finalizeDispatch ≠ RET_OK then RET_ERR
  else
    let out := is_resp_ok (some (stepResp env.finalizeCbs)) true
    match out.2.1 with
    | none => RET_ERR
    | some res => if strlen res = 0 then RET_ERR else out.1

/-- Environment for one run of `check_exists`: the dispatch status of
storage_exists and the delivered callbacks. -/
structure ExistsEnv where
  existsDispatch : Int
  existsCbs : List CbCall

/-- The byte content of the literal C string "true". -/
def trueBytes : List Nat := [116, 114, 117, 101]

/-- The byte content of the literal C string "false". -/
def falseBytes : List Nat := [102, 97, 108, 115, 101]

/-- `check_exists` of storage.c: dispatch storage_exists, await, then
compare the returned string with "true" or "false" according to
`expected`, downgrading the status to RET_ERR on mismatch.  When the
await hands back no string the C code calls `strcmp(NULL, _)`, which is
undefined: that execution is modelled as `none`. -/
def check_exists (env : ExistsEnv) (expected : Bool) : Option Int :=
  if env.existsDispatch ≠ RET_OK then some RET_ERR
  else
    let out := is_resp_ok (some (stepResp env.existsCbs)) true
    match out.2.1 with
    | none => none
    | some res =>
      if expected then
        some (if cstr res = cstr trueBytes then out.1 else RET_ERR)
      else
        some (if cstr res = cstr falseBytes then out.1 else RET_ERR)

/-- Reading a C string is idempotent: the bytes before the first 0 contain
no 0. -/
lemma cstr_idem (l : List Nat) : cstr (cstr l) = cstr l :=
  List.takeWhile_idem

/-- Copying the same `len` bytes into a buffer twice is the same as once,
when the source really holds `len` bytes. -/
lemma memcpy_into_idem (c m : List Nat) (len : Nat) (h : len ≤ m.length) :
    memcpy_into (memcpy_into c m len) m len = memcpy_into c m len := by
  unfold memcpy_into
  have hl : (m.take len).length = len := by
    simp [List.length_take]
    omega
  rw [List.drop_left' hl]

/-- When every poll observes Pending, the wait loop runs its whole fuel. -/
lemma wait_go_pending (obs : Nat → Int) (h : ∀ i, obs i = -1) :
    ∀ fuel start, wait_resp_go obs start fuel = start + fuel := by
  intro fuel
  induction fuel with
  | zero =>
    intro start
    simp [wait_resp_go]
  | succ f ih =>
    intro start
    simp [wait_resp_go, h start, ih (start + 1)]
    omega

/-- The wait loop stops at the first poll that observes a non-Pending
status (or when its fuel runs out, whichever comes first). -/
lemma wait_go_first (obs : Nat → Int) :
    ∀ fuel start j, start ≤ j → j ≤ start + fuel →
      (∀ i, start ≤ i → i < j → obs i = -1) →
      (j < start + fuel → obs j ≠ -1) →
      wait_resp_go obs start fuel = j := by
  intro fuel
  induction fuel with
  | zero =>
    intro start j h1 h2 _ _
    simp [wait_resp_go]
    omega
  | succ f ih =>
    intro start j h1 h2 hpend hstop
    by_cases hs : start = j
    · subst hs
      have hobs : obs start ≠ -1 := hstop (by omega)
      simp [wait_resp_go, hobs]
    · have hlt : start < j := lt_of_le_of_ne h1 hs
      have hobs : obs start = -1 := hpend start le_rfl hlt
      simp only [wait_resp_go, hobs, if_pos rfl]
      exact ih (start + 1) j (by omega) (by omega)
        (fun i hi hij => hpend i (by omega) hij)
        (fun hj => hstop (by omega))

/-- C6: invoking the callback with a NULL correlation token (`userData`)
is a no-op for every result code, message pointer and length: no state is
read or modified. -/
theorem callback_null_userdata_noop (ret : Int) (msg : Option (List Nat)) (len : Nat) :
    callback ret msg len none = none := rfl

/-- C10: `is_resp_ok` on a non-null Resp reports RET_OK exactly when the
observed status is RET_OK; every other observed code — in particular
RET_PROGRESS and RET_MISSING_CALLBACK — is reported as RET_ERR; and
`wait_resp` stops polling at the first non-Pending code it observes, so a
last-observed Progress update is what `is_resp_ok` judges. -/
theorem is_resp_ok_strict_ok (r : Resp) (hasRes : Bool) :
    ((is_resp_ok (some r) hasRes).1 = RET_OK ↔ r.ret = RET_OK)
    ∧ (r.ret = RET_PROGRESS → (is_resp_ok (some r) hasRes).1 = RET_ERR)
    ∧ (r.ret = RET_MISSING_CALLBACK → (is_resp_ok (some r) hasRes).1 = RET_ERR)
    ∧ (∀ obs j, j ≤ MAX_RETRIES → (∀ i, i < j → obs i = -1) → obs j ≠ -1 →
        wait_resp_iters obs = j) := by
  refine ⟨?_, ?_, ?_, ?_⟩
  · by_cases h : r.ret = RET_OK <;> simp [is_resp_ok, h, RET_OK, RET_ERR]
  · intro h
    simp [is_resp_ok, h, RET_PROGRESS, RET_OK, RET_ERR]
  · intro h
    simp [is_resp_ok, h, RET_MISSING_CALLBACK, RET_OK, RET_ERR]
  · intro obs j hj hpend hstop
    exact wait_go_first obs MAX_RETRIES 0 j (Nat.zero_le j) (by omega)
      (fun i _ hij => hpend i hij) (fun _ => hstop)

/-- Witness for C10 at concrete inputs: a Resp whose last observed code is
RET_PROGRESS is reported as RET_ERR, and a status stream that turns
non-Pending at poll 7 stops the wait loop at 7. -/
theorem is_resp_ok_strict_ok_witness :
    (is_resp_ok (some { ret := RET_PROGRESS, msg := none, chunk := none, len := 0 }) false).1 = RET_ERR
    ∧ wait_resp_iters (fun i => if i < 7 then -1 else RET_OK) = 7 := by
  refine ⟨(is_resp_ok_strict_ok { ret := RET_PROGRESS, msg := none, chunk := none, len := 0 } false).2.1 rfl, ?_⟩
  refine (is_resp_ok_strict_ok alloc_resp false).2.2.2 (fun i => if i < 7 then -1 else RET_OK) 7 (by decide) ?_ ?_
  · intro i hi
    simp [hi]
  · simp [RET_OK]

/-- C2: a Resp whose callback is never invoked keeps its initial Pending
status -1; `wait_resp` then performs exactly MAX_RETRIES = 250 polls and
returns instead of blocking, and `is_resp_ok` reports RET_ERR, treating
the operation as abandoned. -/
theorem wait_resp_abandoned (obs : Nat → Int) (r : Resp) (hasRes : Bool)
    (hobs : ∀ k, obs k = -1) (hr : r.ret = -1) :
    wait_resp_iters obs = MAX_RETRIES ∧ (is_resp_ok (some r) hasRes).1 = RET_ERR := by
  constructor
  · unfold wait_resp_iters
    simpa using wait_go_pending obs hobs MAX_RETRIES 0
  · have h : r.ret ≠ RET_OK := by
      rw [hr]
      decide
    simp [is_resp_ok, h]

/-- Witness for C2: the always-Pending stream and a freshly allocated
Resp. -/
theorem wait_resp_abandoned_witness :
    wait_resp_iters (fun _ => -1) = MAX_RETRIES
    ∧ (is_resp_ok (some alloc_resp) false).1 = RET_ERR :=
  wait_resp_abandoned (fun _ => -1) alloc_resp false (fun _ => rfl) rfl

/-- C5: a callback invocation with RET_PROGRESS, a non-null message,
`len > 0` and a chunk buffer already attached copies exactly the first
`len` bytes of the message over the front of the chunk buffer and sets
the Resp's `len` field to `len`.  No hypothesis relates `len` to the
chunk buffer's size: the copy is not bounds-checked. -/
theorem callback_progress_copies (r : Resp) (c m : List Nat) (len : Nat)
    (hc : r.chunk = some c) (hlen : 0 < len) :
    ∃ s, callback RET_PROGRESS (some m) len (some r) = some s
      ∧ s.chunk = some (m.take len ++ c.drop len) ∧ s.len = len := by
  refine ⟨callback_resp RET_PROGRESS (some m) len r, rfl, ?_, ?_⟩ <;>
    cases hm : r.msg <;>
      simp [callback_resp, hc, hm, hlen, memcpy_into]

/-- Witness for C5: the message is 4 bytes but the chunk buffer holds only
2, and the copy still writes all 4 bytes (no bounds check). -/
theorem callback_progress_copies_witness :
    ∃ s, callback RET_PROGRESS (some [1, 2, 3, 4]) 4
        (some { ret := -1, msg := none, chunk := some [9, 9], len := 0 }) = some s
      ∧ s.chunk = some ([1, 2, 3, 4].take 4 ++ [9, 9].drop 4) ∧ s.len = 4 :=
  callback_progress_copies { ret := -1, msg := none, chunk := some [9, 9], len := 0 }
    [9, 9] [1, 2, 3, 4] 4 rfl (by decide)

/-- Sample Resp holding both a chunk and a message, for C7's witness. -/
def consumeChunkSample : Resp :=
  { ret := 0, msg := some [104, 0], chunk := some [119, 0], len := 1 }

/-- Sample Resp holding only a message, for C7's witness. -/
def consumeMsgSample : Resp :=
  { ret := 0, msg := some [104, 0], chunk := none, len := 1 }

/-- C7: for a non-null Resp and a supplied result pointer, `is_resp_ok`
hands back a copy of the chunk buffer whenever one is present, and a copy
of the generic message only when no chunk buffer is present, and in all
cases frees the Resp exactly once before returning. -/
theorem is_resp_ok_consume (r : Resp) :
    ((is_resp_ok (some r) true).2.2.count Act.freeResp = 1)
    ∧ (∀ c, r.chunk = some c → (is_resp_ok (some r) true).2.1 = some (cstr c))
    ∧ (r.chunk = none → ∀ m, r.msg = some m →
        (is_resp_ok (some r) true).2.1 = some (cstr m)) := by
  refine ⟨?_, ?_, ?_⟩
  · cases hm : r.msg <;> cases hc : r.chunk <;>
      simp [is_resp_ok, free_resp_acts, hm, hc]
  · intro c hc
    simp [is_resp_ok, hc]
  · intro hc m hm
    simp [is_resp_ok, hc, hm]

/-- Witness for C7: with both buffers present the chunk copy is returned
and the Resp is freed once; with only a message present the message copy
is returned. -/
theorem is_resp_ok_consume_witness :
    ((is_resp_ok (some consumeChunkSample) true).2.2.count Act.freeResp = 1)
    ∧ (is_resp_ok (some consumeChunkSample) true).2.1 = some (cstr [119, 0])
    ∧ (is_resp_ok (some consumeMsgSample) true).2.1 = some (cstr [104, 0]) :=
  ⟨(is_resp_ok_consume consumeChunkSample).1,
    (is_resp_ok_consume consumeChunkSample).2.1 [119, 0] rfl,
    (is_resp_ok_consume consumeMsgSample).2.2 rfl [104, 0] rfl⟩

/-- Closed form of the callback body for a non-empty message: the code is
stored, the message is replaced by the first `len` bytes, the length
field is set, and the chunk buffer is overwritten only on Progress. -/
lemma callback_resp_closed (ret : Int) (m : List Nat) (len : Nat) (s : Resp)
    (hlen : 0 < len) :
    callback_resp ret (some m) len s =
      { ret := ret, msg := some (m.take len),
        chunk := if ret = RET_PROGRESS then
            Option.map (fun c => memcpy_into c m len) s.chunk
          else s.chunk,
        len := len } := by
  cases hm : s.msg <;> cases hc : s.chunk <;> by_cases hp : ret = RET_PROGRESS <;>
    simp [callback_resp, hm, hc, hp, hlen]

/-- C8: a callback invocation with a non-null message of `len > 0` bytes
discards any previously stored message and stores exactly the first `len`
bytes (the C code additionally null-terminates the copy); invoking the
callback twice with identical arguments leaves the Resp in the same state
as invoking it once. -/
theorem callback_msg_replace_idempotent (ret : Int) (m : List Nat) (len : Nat)
    (r : Resp) (hlen : 0 < len) (hml : len ≤ m.length) :
    (∃ s, callback ret (some m) len (some r) = some s
      ∧ s.msg = some (m.take len) ∧ s.len = len)
    ∧ callback ret (some m) len (callback ret (some m) len (some r)) =
        callback ret (some m) len (some r) := by
  constructor
  · refine ⟨callback_resp ret (some m) len r, rfl, ?_, ?_⟩ <;>
      simp [callback_resp_closed ret m len r hlen]
  · have h2 : callback ret (some m) len (some r) =
        some (callback_resp ret (some m) len r) := rfl
    have h3 : callback ret (some m) len
          (some (callback_resp ret (some m) len r)) =
        some (callback_resp ret (some m) len (callback_resp ret (some m) len r)) := rfl
    rw [h2, h3, callback_resp_closed ret m len r hlen, callback_resp_closed ret m len _ hlen]
    by_cases hp : ret = RET_PROGRESS <;> cases hc : r.chunk <;>
      simp [hp, hc, memcpy_into_idem _ _ _ hml]

/-- Witness for C8 on a Resp already holding an older message. -/
theorem callback_msg_replace_idempotent_witness :
    (∃ s, callback RET_OK (some [97, 98]) 2
        (some { ret := -1, msg := some [120], chunk := none, len := 1 }) = some s
      ∧ s.msg = some ([97, 98].take 2) ∧ s.len = 2)
    ∧ callback RET_OK (some [97, 98]) 2
        (callback RET_OK (some [97, 98]) 2
          (some { ret := -1, msg := some [120], chunk := none, len := 1 })) =
      callback RET_OK (some [97, 98]) 2
        (some { ret := -1, msg := some [120], chunk := none, len := 1 }) :=
  callback_msg_replace_idempotent RET_OK [97, 98] 2
    { ret := -1, msg := some [120], chunk := none, len := 1 } (by decide) (by decide)

/-- A cleanup environment where every dispatch is accepted and the stop
and close calls complete with RET_OK. -/
def envAllOk : CleanupEnv :=
  { stopDispatch := RET_OK, stopCbs := [{ ret := RET_OK, msg := none, len := 0 }],
    closeDispatch := RET_OK, closeCbs := [{ ret := RET_OK, msg := none, len := 0 }],
    destroyDispatch := RET_OK, destroyCbs := [] }

/-- C1 counterexample: a shutdown sequence that reaches the destroy step
and dispatches it successfully, yet `cleanup` returns without ever
awaiting the destroy call's Resp (no `wait_resp` on it occurs). -/
theorem cleanup_destroy_no_await_cex :
    (cleanup envAllOk).1 = RET_OK
    ∧ Step.dispatch Op.destroy ∈ (cleanup envAllOk).2
    ∧ Step.waitOn Op.destroy ∉ (cleanup envAllOk).2 := by
  decide

/-- C1 amended: in every shutdown sequence whose stop and close steps
succeed and whose destroy dispatch is accepted, `cleanup` frees the
destroy Resp and returns RET_OK immediately, performing no await on the
destroy call's Resp (the code relies on storage_destroy being
synchronous). -/
theorem cleanup_destroy_no_wait (env : CleanupEnv)
    (h1 : env.stopDispatch = RET_OK)
    (h2 : (is_resp_ok (some (stepResp env.stopCbs)) false).1 = RET_OK)
    (h3 : env.closeDispatch = RET_OK)
    (h4 : (is_resp_ok (some (stepResp env.closeCbs)) false).1 = RET_OK)
    (h5 : env.destroyDispatch = RET_OK) :
    (cleanup env).1 = RET_OK
    ∧ Step.dispatch Op.destroy ∈ (cleanup env).2
    ∧ Step.free Op.destroy ∈ (cleanup env).2
    ∧ Step.waitOn Op.destroy ∉ (cleanup env).2 := by
  simp [cleanup, h1, h2, h3, h4, h5]

/-- Witness for the amended C1 at the all-success environment. -/
theorem cleanup_destroy_no_wait_witness :
    (cleanup envAllOk).1 = RET_OK
    ∧ Step.dispatch Op.destroy ∈ (cleanup envAllOk).2
    ∧ Step.free Op.destroy ∈ (cleanup envAllOk).2
    ∧ Step.waitOn Op.destroy ∉ (cleanup envAllOk).2 :=
  cleanup_destroy_no_wait envAllOk rfl (by decide) rfl (by decide) rfl

/-- C4: when the stop step of `cleanup` fails (at dispatch or at await),
close and destroy are never dispatched and RET_ERR is returned; when stop
succeeds but the close step fails, destroy is never dispatched and
RET_ERR is returned. -/
theorem cleanup_aborts_on_step_failure (env : CleanupEnv) :
    ((env.stopDispatch ≠ RET_OK
        ∨ (is_resp_ok (some (stepResp env.stopCbs)) false).1 ≠ RET_OK) →
      (cleanup env).1 = RET_ERR
      ∧ Step.dispatch Op.close ∉ (cleanup env).2
      ∧ Step.dispatch Op.destroy ∉ (cleanup env).2)
    ∧ (env.stopDispatch = RET_OK →
        (is_resp_ok (some (stepResp env.stopCbs)) false).1 = RET_OK →
        (env.closeDispatch ≠ RET_OK
          ∨ (is_resp_ok (some (stepResp env.closeCbs)) false).1 ≠ RET_OK) →
        (cleanup env).1 = RET_ERR
        ∧ Step.dispatch Op.destroy ∉ (cleanup env).2) := by
  constructor
  · intro h
    rcases h with h | h
    · simp [cleanup, h]
    · by_cases h1 : env.stopDispatch = RET_OK
      · simp [cleanup, h1, h]
      · simp [cleanup, h1]
  · intro h1 h2 h
    rcases h with h | h
    · simp [cleanup, h1, h2, h]
    · by_cases h3 : env.closeDispatch = RET_OK
      · simp [cleanup, h1, h2, h3, h]
      · simp [cleanup, h1, h2, h3]

/-- A cleanup environment where the stop call is dispatched but completes
with RET_ERR. -/
def envStopAwaitFail : CleanupEnv :=
  { stopDispatch := RET_OK, stopCbs := [{ ret := RET_ERR, msg := none, len := 0 }],
    closeDispatch := RET_OK, closeCbs := [], destroyDispatch := RET_OK, destroyCbs := [] }

/-- Witness for C4: a failed stop await aborts the whole shutdown. -/
theorem cleanup_aborts_on_step_failure_witness :
    (cleanup envStopAwaitFail).1 = RET_ERR
    ∧ Step.dispatch Op.close ∉ (cleanup envStopAwaitFail).2
    ∧ Step.dispatch Op.destroy ∉ (cleanup envStopAwaitFail).2 :=
  (cleanup_aborts_on_step_failure envStopAwaitFail).1 (Or.inr (by decide))

/-- C3: if the finalize step of `check_upload_chunk` hands back no cid
string or an empty one, the function returns RET_ERR even when the
awaited status of the finalize call was RET_OK. -/
theorem check_upload_chunk_empty_cid (env : UploadEnv)
    (_hok : (is_resp_ok (some (stepResp env.finalizeCbs)) true).1 = RET_OK)
    (hempty : (is_resp_ok (some (stepResp env.finalizeCbs)) true).2.1 = none
      ∨ ∃ s, (is_resp_ok (some (stepResp env.finalizeCbs)) true).2.1 = some s
          ∧ strlen s = 0) :
    check_upload_chunk env = RET_ERR := by
  unfold check_upload_chunk
  split_ifs with hd1 hd2 hd3 hd4 hd5
  · rfl
  · rfl
  · rfl
  · rfl
  · rfl
  · rcases hempty with h | ⟨s, hs, h0⟩
    · simp [h]
    · simp [hs, h0]

/-- An upload environment whose finalize call reports RET_OK but whose
payload is the empty C string (a single 0 byte). -/
def uploadEmptyCidEnv : UploadEnv :=
  { initDispatch := RET_OK, initCbs := [{ ret := RET_OK, msg := some [115], len := 1 }],
    chunkDispatch := RET_OK, chunkCbs := [{ ret := RET_OK, msg := none, len := 0 }],
    finalizeDispatch := RET_OK,
    finalizeCbs := [{ ret := RET_OK, msg := some [0], len := 1 }] }

/-- Witness for C3: a successful session whose finalize cid is empty. -/
theorem check_upload_chunk_empty_cid_witness :
    check_upload_chunk uploadEmptyCidEnv = RET_ERR :=
  check_upload_chunk_empty_cid uploadEmptyCidEnv (by decide)
    (Or.inr ⟨[], by decide, rfl⟩)

/-- The string handed back by `is_resp_ok` is a C-string read, so reading
it again changes nothing. -/
lemma is_resp_ok_res_cstr (r : Resp) (s : List Nat)
    (h : (is_resp_ok (some r) true).2.1 = some s) : cstr s = s := by
  cases hc : r.chunk <;> cases hm : r.msg <;>
    simp [is_resp_ok, hc, hm] at h <;>
      rw [← h] <;> exact cstr_idem _

/-- C9: `check_exists` returns RET_OK exactly when the exists dispatch is
accepted, the awaited query completes with status RET_OK, and its payload
is the literal string "true" (when `expected` is true) or "false" (when
`expected` is false); any other payload yields RET_ERR (executions where
the await hands back no string at all are the undefined `none` runs and
carry no defined result). -/
theorem check_exists_ok_iff (env : ExistsEnv) (expected : Bool) (r : Int)
    (h : check_exists env expected = some r) :
    (r = RET_OK ↔
      env.existsDispatch = RET_OK
      ∧ (stepResp env.existsCbs).ret = RET_OK
      ∧ (is_resp_ok (some (stepResp env.existsCbs)) true).2.1 =
          some (if expected then trueBytes else falseBytes))
    ∧ (r = RET_OK ∨ r = RET_ERR) := by
  have hce : check_exists env expected =
      (if env.existsDispatch ≠ RET_OK then some RET_ERR
       else
         match (is_resp_ok (some (stepResp env.existsCbs)) true).2.1 with
         | none => none
         | some res =>
           some (if cstr res = cstr (if expected then trueBytes else falseBytes) then
               (is_resp_ok (some (stepResp env.existsCbs)) true).1
             else RET_ERR)) := by
    cases expected <;> rfl
  have htgt : cstr (if expected then trueBytes else falseBytes) =
      (if expected then trueBytes else falseBytes) := by
    cases expected <;> decide
  have hret : (is_resp_ok (some (stepResp env.existsCbs)) true).1 =
      if (stepResp env.existsCbs).ret = RET_OK then RET_OK else RET_ERR := by
    simp [is_resp_ok]
  rw [hce] at h
  by_cases hd : env.existsDispatch = RET_OK
  · simp only [hd, ne_eq, not_true_eq_false, if_false] at h
    cases hres : (is_resp_ok (some (stepResp env.existsCbs)) true).2.1 with
    | none =>
      rw [hres] at h
      exact absurd h (by simp)
    | some res =>
      rw [hres] at h
      have hcs : cstr res = res := is_resp_ok_res_cstr _ _ hres
      have hr0 : (if cstr res = cstr (if expected then trueBytes else falseBytes) then
          (is_resp_ok (some (stepResp env.existsCbs)) true).1 else RET_ERR) = r :=
        Option.some.inj h
      by_cases hm : cstr res = cstr (if expected then trueBytes else falseBytes)
      · rw [if_pos hm, hret] at hr0
        have hre : res = (if expected then trueBytes else falseBytes) :=
          hcs.symm.trans (hm.trans htgt)
        by_cases hrr : (stepResp env.existsCbs).ret = RET_OK
        · rw [if_pos hrr] at hr0
          subst hr0
          constructor
          · simp [hd, hrr, hre]
          · exact Or.inl rfl
        · rw [if_neg hrr] at hr0
          subst hr0
          constructor
          · constructor
            · intro hcon
              exact absurd hcon (by decide)
            · rintro ⟨-, hcon, -⟩
              exact absurd hcon hrr
          · exact Or.inr rfl
      · rw [if_neg hm] at hr0
        subst hr0
        constructor
        · constructor
          · intro hcon
            exact absurd hcon (by decide)
          · rintro ⟨-, -, hcon⟩
            have hres_eq : res = (if expected then trueBytes else falseBytes) :=
              Option.some.inj hcon
            exact (hm (by rw [hres_eq, htgt])).elim
        · exact Or.inr rfl
  · simp only [hd, ne_eq, not_false_eq_true, if_true] at h
    have hr0 : (RET_ERR : Int) = r := Option.some.inj h
    subst hr0
    constructor
    · constructor
      · intro hcon
        exact absurd hcon (by decide)
      · rintro ⟨hcon, -, -⟩
        exact absurd hcon hd
    · exact Or.inr rfl

/-- An exists environment whose query completes with RET_OK and the
payload "true". -/
def existsTrueEnv : ExistsEnv :=
  { existsDispatch := RET_OK,
    existsCbs := [{ ret := RET_OK, msg := some [116, 114, 117, 101], len := 4 }] }

/-- Witness for C9: with payload "true" and `expected = true` the result
is RET_OK and the characterization holds. -/
theorem check_exists_ok_iff_witness :
    ((RET_OK : Int) = RET_OK ↔
      existsTrueEnv.existsDispatch = RET_OK
      ∧ (stepResp existsTrueEnv.existsCbs).ret = RET_OK
      ∧ (is_resp_ok (some (stepResp existsTrueEnv.existsCbs)) true).2.1 =
          some (if true then trueBytes else falseBytes))
    ∧ ((RET_OK : Int) = RET_OK ∨ (RET_OK : Int) = RET_ERR) :=
  check_exists_ok_iff existsTrueEnv true RET_OK (by decide)

end Storage
